import Mathlib

/-!
Shallow embedding of the promotion-coupon redirect endpoint described in
`docs/promotion-coupon-pseudocode.md`.  The request handler
(`handlePromotionCouponRequest`), the repository query
(`queryAffiliateLinkFromDatabase`), the cache gateway and the tracking
insert are translated directly from the pseudocode.  Datetimes are
modelled as integers, the cache store as an association list of entries
with absolute expiry instants, and the nondeterministic environment
(cache timeouts/failures, tracking-insert failure) as explicit boolean
behaviour flags.  Side channels that the frame-effect claims need
(whether the repository was queried, whether a cache get was attempted,
which click event was created) are returned as observable fields of the
handler result.
-/

namespace PromotionCoupon

/-- Commission type enumeration of a campaign. -/
inductive CommissionType where
  | PERCENTAGE
  | FIXED
deriving DecidableEq, Repr

/-- Approval / active-status flag enumeration used by campaigns. -/
inductive ActiveFlag where
  | ACTIVE
  | INACTIVE
deriving DecidableEq, Repr

/-- Click-event status enumeration. -/
inductive ClickStatus where
  | CLICK
  | CONVERSION
deriving DecidableEq, Repr

/-- Payment state enumeration of a tracking row. -/
inductive PaymentState where
  | HOLD
  | RELEASE
deriving DecidableEq, Repr

/-- Campaign row, per STRUCTURE Campaign in the pseudocode.  `start_on`
and `end_on` are datetimes modelled as integers. -/
structure Campaign where
  id : Nat
  title : String
  url : String
  image_id : Option Nat
  description : String
  start_on : Int
  end_on : Int
  package_id : Nat
  commission_type : CommissionType
  commission : Nat
  approval : ActiveFlag
  campaign_status : ActiveFlag
  created_at : Int
  updated_at : Int
deriving DecidableEq, Repr

/-- Affiliate-link row of the `affiliate_links` table, per STRUCTURE
AffiliateLink (without the nested campaign, which the query joins in). -/
structure AffiliateLink where
  id : Nat
  coupon : String
  affiliate_id : Nat
  campaign_id : Nat
  created_at : Int
  updated_at : Int
deriving DecidableEq, Repr

/-- A resolved affiliate-link record: the link row together with the
joined campaign.  This is also the shape of a cached snapshot; a parsed
snapshot may carry a null `id` or a null `campaign` (the handler's
STEP 6 guard checks `affiliateLink.id is NULL`), so those fields are
options here. -/
structure ResolvedLink where
  id : Option Nat
  coupon : String
  affiliate_id : Nat
  campaign_id : Nat
  campaign : Option Campaign
  created_at : Int
  updated_at : Int
deriving DecidableEq, Repr

/-- Click tracking event, per STRUCTURE ClickTrackingEvent.  `payment`
defaults to HOLD and `amount` to 0 as in the source.  The FLOAT amount
is modelled as an integer; the endpoint only ever writes 0. -/
structure ClickTrackingEvent where
  country : String
  affiliate_id : Nat
  campaign_id : Nat
  link_id : Nat
  click_status : ClickStatus
  payment : PaymentState := PaymentState.HOLD
  amount : Int := 0
deriving DecidableEq, Repr

/-- Row of the `affiliate_tracking` table as written by
`insertClickTracking`. -/
structure TrackingRow where
  country : String
  affiliate_id : Nat
  campaign_id : Nat
  link_id : Nat
  click_status : ClickStatus
  payment : PaymentState
  amount : Int
  created_at : Int
  updated_at : Int
deriving DecidableEq, Repr

/-- The relational store: the two tables the endpoint reads. -/
structure Database where
  affiliate_links : List AffiliateLink
  campaigns : List Campaign
deriving DecidableEq, Repr

/-- One cache entry: key, stored snapshot, and the absolute instant at
which the entry expires (write time plus TTL). -/
structure CacheEntry where
  key : String
  value : ResolvedLink
  expiresAt : Int
deriving DecidableEq, Repr

/-- Cache gateway state: connection and health flags plus the store. -/
structure CacheState where
  connected : Bool
  healthy : Bool
  store : List CacheEntry
deriving DecidableEq, Repr

/-- Environment behaviour flags: whether the cache get operation times
out or errors (exceeding the 1000 ms budget or any transport error),
whether the cache set does, and whether the tracking insert fails. -/
structure Behavior where
  cacheGetFails : Bool
  cacheSetFails : Bool
  trackFails : Bool
deriving DecidableEq, Repr

/-- The full mutable world a request runs against. -/
structure World where
  db : Database
  cache : CacheState
  tracking : List TrackingRow
deriving DecidableEq, Repr

/-- Incoming HTTP request: the `coupon` path parameter (absent when the
route did not capture one) and the header list. -/
structure Request where
  coupon : Option String
  headers : List (String × String)
deriving DecidableEq, Repr

/-- Outgoing HTTP response: a 302 redirect to a location, a 200 template
render carrying the resolved record and country, or a JSON error body. -/
inductive Response where
  | redirect (location : String)
  | render (template : String) (data : ResolvedLink) (country : String) (statusCode : Nat)
  | jsonError (statusCode : Nat) (message : String)
deriving DecidableEq, Repr

/-- Result of one handler run: the response, the updated world, and the
observables needed to state frame effects (the resolved snapshot, whether
the repository was read, whether a cache get was attempted, and the click
event created, if any). -/
structure HandlerResult where
  response : Response
  world : World
  resolved : Option ResolvedLink
  repoQueried : Bool
  cacheGetAttempted : Bool
  clickEvent : Option ClickTrackingEvent
deriving DecidableEq, Repr

/-- Cache TTL for affiliate links: 1800 seconds (30 minutes). -/
def CACHE_TTL_AFFILIATE_LINK : Int := 1800

/-- Cache key format `affiliate:link:` followed by the coupon code. -/
def cacheKeyFor (coupon : String) : String := "affiliate:link:" ++ coupon

/-- The campaign-active predicate used in the repository query:
`start_on < now AND end_on > now`, both strict. -/
def campaignActive (c : Campaign) (now : Int) : Bool :=
  decide (c.start_on < now) && decide (c.end_on > now)

/-- FUNCTION queryAffiliateLinkFromDatabase: equality match on the coupon
code, inner join against the owning campaign filtered by
`campaignActive`, LIMIT 1 (first row in table order). -/
def queryAffiliateLinkFromDatabase (db : Database) (coupon : String) (now : Int) :
    Option ResolvedLink :=
  (db.affiliate_links.filterMap (fun al =>
    if al.coupon = coupon then
      (db.campaigns.find? (fun c =>
        decide (c.id = al.campaign_id) && campaignActive c now)).map (fun c =>
        { id := some al.id
          coupon := al.coupon
          affiliate_id := al.affiliate_id
          campaign_id := al.campaign_id
          campaign := some c
          created_at := al.created_at
          updated_at := al.updated_at })
    else none)).head?

/-- Raw cache read: first entry for the key that has not expired
(an entry written at `t` with TTL `ttl` is gone at instants `≥ t + ttl`). -/
def cacheLookup (store : List CacheEntry) (key : String) (now : Int) :
    Option ResolvedLink :=
  (store.find? (fun e => e.key == key && decide (now < e.expiresAt))).map
    (fun e => e.value)

/-- Cache SETEX: store the snapshot under the key with an absolute expiry,
replacing any previous entry for that key. -/
def setEx (store : List CacheEntry) (key : String) (v : ResolvedLink)
    (expiresAt : Int) : List CacheEntry :=
  { key := key, value := v, expiresAt := expiresAt } ::
    store.filter (fun e => e.key != key)

/-- STEP 3 of the controller: the cache is consulted only when connected
and healthy; a get that times out or errors is caught and yields nothing;
otherwise the stored, unexpired snapshot (if any) is returned. -/
def cachedRead (cache : CacheState) (getFails : Bool) (key : String) (now : Int) :
    Option ResolvedLink :=
  if cache.connected && cache.healthy then
    if getFails then none else cacheLookup cache.store key now
  else none

/-- Character-wise lowercasing of a string (the `toLowerCase` of the
pseudocode, written over the character list so it is computable here). -/
def lowerString (s : String) : String := String.mk (s.data.map Char.toLower)

/-- FUNCTION extractHeader: case-insensitive lookup of a header value. -/
def extractHeader (headers : List (String × String)) (headerName : String) :
    Option String :=
  (headers.find? (fun h => lowerString h.fst == lowerString headerName)).map
    (fun h => h.snd)

/-- STEP 7 of the controller: the country from the `cf-ipcountry` header,
defaulting to UNKNOWN when the header is absent or empty. -/
def countryOf (req : Request) : String :=
  match extractHeader req.headers "cf-ipcountry" with
  | none => "UNKNOWN"
  | some c => if c = "" then "UNKNOWN" else c

/-- FUNCTION insertClickTracking: the persisted row carries the event's
country, ids and click status together with the constants payment = HOLD
and amount = 0, timestamped with the current datetime. -/
def insertClickTracking (ev : ClickTrackingEvent) (now : Int) : TrackingRow :=
  { country := ev.country
    affiliate_id := ev.affiliate_id
    campaign_id := ev.campaign_id
    link_id := ev.link_id
    click_status := ev.click_status
    payment := PaymentState.HOLD
    amount := 0
    created_at := now
    updated_at := now }

/-- STEPS 6 to 9 of the controller, run once a (cached or queried)
snapshot `al` is in hand: guard on a null id, extract the country, create
the click event, fire the tracking insert (its failure is swallowed), and
render the redirect template with status 200.  `store2` is the cache
store after the optional write-back and `repoQ` records whether the
repository was read. -/
def finishRequest (w : World) (req : Request) (now : Int) (al : ResolvedLink)
    (store2 : List CacheEntry) (repoQ : Bool) (trackFails : Bool) : HandlerResult :=
  match al.id with
  | none =>
      { response := Response.redirect "/pricing"
        world := { w with cache := { w.cache with store := store2 } }
        resolved := some al
        repoQueried := repoQ
        cacheGetAttempted := w.cache.connected && w.cache.healthy
        clickEvent := none }
  | some linkId =>
      let country := countryOf req
      let ev : ClickTrackingEvent :=
        { country := country
          affiliate_id := al.affiliate_id
          campaign_id := al.campaign_id
          link_id := linkId
          click_status := ClickStatus.CLICK }
      { response := Response.render "coupon_redirect" al country 200
        world :=
          { w with
            cache := { w.cache with store := store2 }
            tracking :=
              if trackFails then w.tracking
              else w.tracking ++ [insertClickTracking ev now] }
        resolved := some al
        repoQueried := repoQ
        cacheGetAttempted := w.cache.connected && w.cache.healthy
        clickEvent := some ev }

/-- FUNCTION handlePromotionCouponRequest, the main controller.  STEP 1
rejects a missing or empty coupon without touching cache or repository;
STEP 3 attempts the cache read; STEP 4 queries the repository on a miss;
STEP 5 writes a found record back to the cache (when connected and the
write does not fail) with TTL 1800; STEP 6 redirects to `/pricing` when
nothing (or an id-less snapshot) was resolved; STEPS 7 to 9 track the
click and render the template. -/
def handlePromotionCouponRequest (w : World) (beh : Behavior) (req : Request)
    (now : Int) : HandlerResult :=
  match req.coupon with
  | none =>
      { response := Response.redirect "/pricing", world := w, resolved := none
        repoQueried := false, cacheGetAttempted := false, clickEvent := none }
  | some coupon =>
      if coupon = "" then
        { response := Response.redirect "/pricing", world := w, resolved := none
          repoQueried := false, cacheGetAttempted := false, clickEvent := none }
      else
        match cachedRead w.cache beh.cacheGetFails (cacheKeyFor coupon) now with
        | some v => finishRequest w req now v w.cache.store false beh.trackFails
        | none =>
            match queryAffiliateLinkFromDatabase w.db coupon now with
            | some v =>
                finishRequest w req now v
                  (if w.cache.connected && !beh.cacheSetFails then
                    setEx w.cache.store (cacheKeyFor coupon) v
                      (now + CACHE_TTL_AFFILIATE_LINK)
                  else w.cache.store) true beh.trackFails
            | none =>
                { response := Response.redirect "/pricing"
                  world := w
                  resolved := none
                  repoQueried := true
                  cacheGetAttempted := w.cache.connected && w.cache.healthy
                  clickEvent := none }

/-- An affiliate-link row together with a campaign active at `now`,
matching the coupon: the condition under which the repository query
succeeds. -/
def activeRowExists (db : Database) (coupon : String) (now : Int) : Prop :=
  ∃ al ∈ db.affiliate_links, al.coupon = coupon ∧
    ∃ c ∈ db.campaigns, c.id = al.campaign_id ∧
      c.start_on < now ∧ now < c.end_on

instance (db : Database) (coupon : String) (now : Int) :
    Decidable (activeRowExists db coupon now) := by
  unfold activeRowExists
  infer_instance

/-- The repository read yields nothing exactly when no affiliate-link row
with the coupon has an owning campaign active at `now` (strict window). -/
theorem query_eq_none_iff (db : Database) (coupon : String) (now : Int) :
    queryAffiliateLinkFromDatabase db coupon now = none ↔
      ¬ activeRowExists db coupon now := by
  unfold queryAffiliateLinkFromDatabase activeRowExists
  rw [List.head?_eq_none_iff, List.filterMap_eq_nil_iff]
  constructor
  · rintro h ⟨al, hal, hcoup, c, hc, hid, h1, h2⟩
    have hf := h al hal
    rw [if_pos hcoup, Option.map_eq_none', List.find?_eq_none] at hf
    have hfc := hf c hc
    simp only [campaignActive, Bool.and_eq_true, decide_eq_true_eq, gt_iff_lt] at hfc
    exact hfc ⟨hid, h1, h2⟩
  · intro h al hal
    by_cases hcoup : al.coupon = coupon
    · rw [if_pos hcoup, Option.map_eq_none', List.find?_eq_none]
      intro c hc hp
      simp only [campaignActive, Bool.and_eq_true, decide_eq_true_eq, gt_iff_lt] at hp
      exact h ⟨al, hal, hcoup, c, hc, hp.1, hp.2.1, hp.2.2⟩
    · rw [if_neg hcoup]

/-- A list's optional head, when present, is a member of the list. -/
theorem head?_mem {α : Type} {l : List α} {a : α} (h : l.head? = some a) :
    a ∈ l := by
  cases l with
  | nil => simp at h
  | cons x xs => simp at h; simp [h]

/-- Shape of a successful repository read: the returned record comes from
an affiliate-link row matching the coupon joined with a campaign active
at `now`, and carries that row's id (non-null), campaign and foreign
keys. -/
theorem query_some_shape (db : Database) (coupon : String) (now : Int)
    (v : ResolvedLink)
    (h : queryAffiliateLinkFromDatabase db coupon now = some v) :
    ∃ al c, al ∈ db.affiliate_links ∧ c ∈ db.campaigns ∧
      al.coupon = coupon ∧ c.id = al.campaign_id ∧
      c.start_on < now ∧ now < c.end_on ∧
      v.id = some al.id ∧ v.campaign = some c ∧
      v.affiliate_id = al.affiliate_id ∧ v.campaign_id = al.campaign_id ∧
      v.coupon = al.coupon := by
  unfold queryAffiliateLinkFromDatabase at h
  have hv := head?_mem h
  rw [List.mem_filterMap] at hv
  obtain ⟨al, hal, hfal⟩ := hv
  by_cases hcoup : al.coupon = coupon
  · rw [if_pos hcoup, Option.map_eq_some'] at hfal
    obtain ⟨c, hfind, hgc⟩ := hfal
    have hcmem : c ∈ db.campaigns := List.mem_of_find?_eq_some hfind
    have hpc := List.find?_some hfind
    simp only [campaignActive, Bool.and_eq_true, decide_eq_true_eq, gt_iff_lt] at hpc
    refine ⟨al, c, hal, hcmem, hcoup, hpc.1, hpc.2.1, hpc.2.2, ?_⟩
    rw [← hgc]
    simp
  · rw [if_neg hcoup] at hfal
    exact absurd hfal (by simp)

/-- A record returned by the repository read always has a non-null id. -/
theorem query_some_id (db : Database) (coupon : String) (now : Int)
    (v : ResolvedLink)
    (h : queryAffiliateLinkFromDatabase db coupon now = some v) :
    ∃ n, v.id = some n := by
  obtain ⟨al, _, _, _, _, _, _, _, hid, _⟩ := query_some_shape db coupon now v h
  exact ⟨al.id, hid⟩

/-- Unfolding of `finishRequest` when the snapshot has a null id: the
request is redirected to the pricing page and no click event is made. -/
theorem finishRequest_id_none (w : World) (req : Request) (now : Int)
    (al : ResolvedLink) (store2 : List CacheEntry) (repoQ tf : Bool)
    (hid : al.id = none) :
    finishRequest w req now al store2 repoQ tf =
      { response := Response.redirect "/pricing"
        world := { w with cache := { w.cache with store := store2 } }
        resolved := some al
        repoQueried := repoQ
        cacheGetAttempted := w.cache.connected && w.cache.healthy
        clickEvent := none } := by
  unfold finishRequest
  rw [hid]

/-- Unfolding of `finishRequest` when the snapshot has an id: the
template is rendered with status 200 and a click event is created (and
persisted unless the tracking insert fails). -/
theorem finishRequest_id_some (w : World) (req : Request) (now : Int)
    (al : ResolvedLink) (store2 : List CacheEntry) (repoQ tf : Bool)
    (linkId : Nat) (hid : al.id = some linkId) :
    finishRequest w req now al store2 repoQ tf =
      { response := Response.render "coupon_redirect" al (countryOf req) 200
        world :=
          { w with
            cache := { w.cache with store := store2 }
            tracking :=
              if tf then w.tracking
              else w.tracking ++
                [insertClickTracking
                  { country := countryOf req
                    affiliate_id := al.affiliate_id
                    campaign_id := al.campaign_id
                    link_id := linkId
                    click_status := ClickStatus.CLICK } now] }
        resolved := some al
        repoQueried := repoQ
        cacheGetAttempted := w.cache.connected && w.cache.healthy
        clickEvent := some
          { country := countryOf req
            affiliate_id := al.affiliate_id
            campaign_id := al.campaign_id
            link_id := linkId
            click_status := ClickStatus.CLICK } } := by
  unfold finishRequest
  rw [hid]

/-- Unfolding of the handler on a cache hit: the snapshot from the cache
is finished with an unchanged store and no repository read. -/
theorem handler_hit (w : World) (beh : Behavior) (req : Request) (now : Int)
    (coupon : String) (v : ResolvedLink)
    (hc : req.coupon = some coupon) (hne : coupon ≠ "")
    (hhit : cachedRead w.cache beh.cacheGetFails (cacheKeyFor coupon) now = some v) :
    handlePromotionCouponRequest w beh req now =
      finishRequest w req now v w.cache.store false beh.trackFails := by
  unfold handlePromotionCouponRequest
  rw [hc]
  simp only [if_neg hne, hhit]

/-- Unfolding of the handler on a cache miss with a successful repository
read: the record is finished with the write-back store and a repository
read. -/
theorem handler_miss_some (w : World) (beh : Behavior) (req : Request)
    (now : Int) (coupon : String) (v : ResolvedLink)
    (hc : req.coupon = some coupon) (hne : coupon ≠ "")
    (hmiss : cachedRead w.cache beh.cacheGetFails (cacheKeyFor coupon) now = none)
    (hdb : queryAffiliateLinkFromDatabase w.db coupon now = some v) :
    handlePromotionCouponRequest w beh req now =
      finishRequest w req now v
        (if w.cache.connected && !beh.cacheSetFails then
          setEx w.cache.store (cacheKeyFor coupon) v
            (now + CACHE_TTL_AFFILIATE_LINK)
        else w.cache.store) true beh.trackFails := by
  unfold handlePromotionCouponRequest
  rw [hc]
  simp only [if_neg hne, hmiss, hdb]

/-- Unfolding of the handler on a cache miss with an empty repository
read: redirect to the pricing page, world untouched. -/
theorem handler_miss_none (w : World) (beh : Behavior) (req : Request)
    (now : Int) (coupon : String)
    (hc : req.coupon = some coupon) (hne : coupon ≠ "")
    (hmiss : cachedRead w.cache beh.cacheGetFails (cacheKeyFor coupon) now = none)
    (hdb : queryAffiliateLinkFromDatabase w.db coupon now = none) :
    handlePromotionCouponRequest w beh req now =
      { response := Response.redirect "/pricing"
        world := w
        resolved := none
        repoQueried := true
        cacheGetAttempted := w.cache.connected && w.cache.healthy
        clickEvent := none } := by
  unfold handlePromotionCouponRequest
  rw [hc]
  simp only [if_neg hne, hmiss, hdb]

/-- Reading back the key just written by `setEx` before its expiry
returns the stored snapshot. -/
theorem cacheLookup_setEx (store : List CacheEntry) (key : String)
    (v : ResolvedLink) (expiresAt now2 : Int) (h : now2 < expiresAt) :
    cacheLookup (setEx store key v expiresAt) key now2 = some v := by
  unfold cacheLookup setEx
  rw [List.find?_cons_of_pos]
  · rfl
  · simp [h]

/-- A key with no unexpired entry at `now` still has none at any later
instant over an unchanged store. -/
theorem cacheLookup_none_mono (store : List CacheEntry) (key : String)
    (now now2 : Int) (hle : now ≤ now2)
    (h : cacheLookup store key now = none) :
    cacheLookup store key now2 = none := by
  unfold cacheLookup at h ⊢
  rw [Option.map_eq_none', List.find?_eq_none] at h ⊢
  intro e he
  have := h e he
  simp only [Bool.and_eq_true, beq_iff_eq, decide_eq_true_eq] at this ⊢
  rintro ⟨hk, hlt⟩
  exact this ⟨hk, lt_of_le_of_lt hle hlt⟩

/-- Discriminator for the JSON error response shape. -/
def isJsonError : Response → Bool
  | Response.jsonError _ _ => true
  | _ => false

/-- Unfolding of the handler when no coupon path parameter is present. -/
theorem handler_coupon_none (w : World) (beh : Behavior) (req : Request)
    (now : Int) (hc : req.coupon = none) :
    handlePromotionCouponRequest w beh req now =
      { response := Response.redirect "/pricing", world := w, resolved := none
        repoQueried := false, cacheGetAttempted := false, clickEvent := none } := by
  unfold handlePromotionCouponRequest
  rw [hc]

/-- Unfolding of the handler when the coupon path parameter is empty. -/
theorem handler_coupon_empty (w : World) (beh : Behavior) (req : Request)
    (now : Int) (hc : req.coupon = some "") :
    handlePromotionCouponRequest w beh req now =
      { response := Response.redirect "/pricing", world := w, resolved := none
        repoQueried := false, cacheGetAttempted := false, clickEvent := none } := by
  unfold handlePromotionCouponRequest
  rw [hc]
  simp

/-- The snapshot recorded by `finishRequest` is the one it was given. -/
theorem finishRequest_resolved (w : World) (req : Request) (now : Int)
    (al : ResolvedLink) (store2 : List CacheEntry) (repoQ tf : Bool) :
    (finishRequest w req now al store2 repoQ tf).resolved = some al := by
  unfold finishRequest
  cases hid : al.id <;> rfl

/-- The repository-read flag recorded by `finishRequest` is the one it
was given. -/
theorem finishRequest_repoQueried (w : World) (req : Request) (now : Int)
    (al : ResolvedLink) (store2 : List CacheEntry) (repoQ tf : Bool) :
    (finishRequest w req now al store2 repoQ tf).repoQueried = repoQ := by
  unfold finishRequest
  cases hid : al.id <;> rfl

/-- `finishRequest` never produces a JSON error response. -/
theorem finishRequest_not_jsonError (w : World) (req : Request) (now : Int)
    (al : ResolvedLink) (store2 : List CacheEntry) (repoQ tf : Bool) :
    isJsonError (finishRequest w req now al store2 repoQ tf).response = false := by
  unfold finishRequest
  cases hid : al.id <;> rfl

/-- Inversion of a rendered `finishRequest`: the template is the redirect
template with status 200, the country is the request's detected country,
the rendered record is the given snapshot, its id is non-null, and the
created click event and tracking append are determined. -/
theorem finish_render_inv (w : World) (req : Request) (now : Int)
    (al : ResolvedLink) (store2 : List CacheEntry) (repoQ tf : Bool)
    (t : String) (v : ResolvedLink) (cty : String) (s : Nat)
    (hresp : (finishRequest w req now al store2 repoQ tf).response =
      Response.render t v cty s) :
    t = "coupon_redirect" ∧ s = 200 ∧ cty = countryOf req ∧ v = al ∧
    ∃ linkId, v.id = some linkId ∧
      (finishRequest w req now al store2 repoQ tf).clickEvent = some
        { country := countryOf req
          affiliate_id := v.affiliate_id
          campaign_id := v.campaign_id
          link_id := linkId
          click_status := ClickStatus.CLICK } ∧
      (finishRequest w req now al store2 repoQ tf).world.tracking =
        (if tf then w.tracking
         else w.tracking ++
           [insertClickTracking
             { country := countryOf req
               affiliate_id := v.affiliate_id
               campaign_id := v.campaign_id
               link_id := linkId
               click_status := ClickStatus.CLICK } now]) := by
  cases hid : al.id with
  | none =>
      rw [finishRequest_id_none w req now al store2 repoQ tf hid] at hresp
      simp at hresp
  | some linkId =>
      rw [finishRequest_id_some w req now al store2 repoQ tf linkId hid] at hresp
      simp only [Response.render.injEq] at hresp
      obtain ⟨ht, hv, hcty, hs⟩ := hresp
      subst ht hv hcty hs
      refine ⟨rfl, rfl, rfl, rfl, linkId, hid, ?_, ?_⟩
      · rw [finishRequest_id_some w req now al store2 repoQ tf linkId hid]
      · rw [finishRequest_id_some w req now al store2 repoQ tf linkId hid]

/-- Inversion of a rendered handler run: a 200 render can only come from
`finishRequest` on a snapshot with a non-null id, so the template,
status, country, click event and tracking append are all determined. -/
theorem handler_render_inv (w : World) (beh : Behavior) (req : Request)
    (now : Int) (t : String) (v : ResolvedLink) (cty : String) (s : Nat)
    (hresp : (handlePromotionCouponRequest w beh req now).response =
      Response.render t v cty s) :
    t = "coupon_redirect" ∧ s = 200 ∧ cty = countryOf req ∧
    ∃ linkId, v.id = some linkId ∧
      (handlePromotionCouponRequest w beh req now).clickEvent = some
        { country := countryOf req
          affiliate_id := v.affiliate_id
          campaign_id := v.campaign_id
          link_id := linkId
          click_status := ClickStatus.CLICK } ∧
      (handlePromotionCouponRequest w beh req now).world.tracking =
        (if beh.trackFails then w.tracking
         else w.tracking ++
           [insertClickTracking
             { country := countryOf req
               affiliate_id := v.affiliate_id
               campaign_id := v.campaign_id
               link_id := linkId
               click_status := ClickStatus.CLICK } now]) := by
  rcases hreq : req.coupon with _ | coupon
  · rw [handler_coupon_none w beh req now hreq] at hresp
    simp at hresp
  · by_cases hne : coupon = ""
    · rw [handler_coupon_empty w beh req now (by rw [hreq, hne])] at hresp
      simp at hresp
    · rcases hcr : cachedRead w.cache beh.cacheGetFails (cacheKeyFor coupon) now
        with _ | v'
      · rcases hq : queryAffiliateLinkFromDatabase w.db coupon now with _ | v'
        · rw [handler_miss_none w beh req now coupon hreq hne hcr hq] at hresp
          simp at hresp
        · rw [handler_miss_some w beh req now coupon v' hreq hne hcr hq] at hresp ⊢
          obtain ⟨ht, hs, hcty, hv, rest⟩ := finish_render_inv _ _ _ _ _ _ _ _ _ _ _ hresp
          subst hv
          exact ⟨ht, hs, hcty, rest⟩
      · rw [handler_hit w beh req now coupon v' hreq hne hcr] at hresp ⊢
        obtain ⟨ht, hs, hcty, hv, rest⟩ := finish_render_inv _ _ _ _ _ _ _ _ _ _ _ hresp
        subst hv
        exact ⟨ht, hs, hcty, rest⟩

/-- Sample campaign used by the concrete witnesses: active on the open
window (100, 200). -/
def sampleCampaign : Campaign :=
  { id := 7
    title := "Summer promo"
    url := "https://campaign.example/landing"
    image_id := none
    description := "seasonal offer"
    start_on := 100
    end_on := 200
    package_id := 3
    commission_type := CommissionType.PERCENTAGE
    commission := 10
    approval := ActiveFlag.ACTIVE
    campaign_status := ActiveFlag.ACTIVE
    created_at := 0
    updated_at := 0 }

/-- Sample affiliate-link row owning `sampleCampaign`. -/
def sampleLink : AffiliateLink :=
  { id := 11
    coupon := "SAVE20"
    affiliate_id := 5
    campaign_id := 7
    created_at := 0
    updated_at := 0 }

/-- Sample database with the one link and its campaign. -/
def sampleDb : Database :=
  { affiliate_links := [sampleLink], campaigns := [sampleCampaign] }

/-- The resolved record the repository read produces for `sampleLink`
during the campaign window, which is also the snapshot format cached. -/
def sampleSnapshot : ResolvedLink :=
  { id := some 11
    coupon := "SAVE20"
    affiliate_id := 5
    campaign_id := 7
    campaign := some sampleCampaign
    created_at := 0
    updated_at := 0 }

/-- Sample world with a connected, healthy, empty cache. -/
def sampleWorld : World :=
  { db := sampleDb
    cache := { connected := true, healthy := true, store := [] }
    tracking := [] }

/-- Sample world whose cache already holds `sampleSnapshot` for the
coupon, as if written at instant 150 with TTL 1800 (expiry 1950). -/
def cachedWorld : World :=
  { db := sampleDb
    cache :=
      { connected := true
        healthy := true
        store := [{ key := cacheKeyFor "SAVE20", value := sampleSnapshot,
                    expiresAt := 1950 }] }
    tracking := [] }

/-- Sample world whose cache client is disconnected. -/
def disconnectedWorld : World :=
  { db := sampleDb
    cache := { connected := false, healthy := false, store := [] }
    tracking := [] }

/-- Behaviour in which no cache operation or tracking insert fails. -/
def behOk : Behavior :=
  { cacheGetFails := false, cacheSetFails := false, trackFails := false }

/-- Sample request for the coupon with a country header. -/
def sampleReq : Request :=
  { coupon := some "SAVE20", headers := [("cf-ipcountry", "US")] }

/-- Sample request for the coupon without any headers. -/
def reqNoHeader : Request :=
  { coupon := some "SAVE20", headers := [] }

/-- The response of `finishRequest` does not depend on whether the
tracking insert fails. -/
theorem finishRequest_response_trackFails (w : World) (req : Request)
    (now : Int) (al : ResolvedLink) (store2 : List CacheEntry) (repoQ : Bool)
    (tf tf' : Bool) :
    (finishRequest w req now al store2 repoQ tf).response =
    (finishRequest w req now al store2 repoQ tf').response := by
  unfold finishRequest
  cases hid : al.id <;> rfl

/-- C6: For an empty or missing coupon code, resolution returns NotFound
(a redirect to /pricing) without querying the cache or the repository:
neither a cache get nor a repository read is performed for that
request. -/
theorem empty_coupon_redirects_without_lookups (w : World) (beh : Behavior)
    (req : Request) (now : Int)
    (h : req.coupon = none ∨ req.coupon = some "") :
    (handlePromotionCouponRequest w beh req now).response =
      Response.redirect "/pricing" ∧
    (handlePromotionCouponRequest w beh req now).cacheGetAttempted = false ∧
    (handlePromotionCouponRequest w beh req now).repoQueried = false := by
  rcases h with h | h
  · rw [handler_coupon_none w beh req now h]
    exact ⟨rfl, rfl, rfl⟩
  · rw [handler_coupon_empty w beh req now h]
    exact ⟨rfl, rfl, rfl⟩

/-- Witness for C6 at the concrete empty-coupon request. -/
theorem empty_coupon_redirects_without_lookups_witness :
    (({ coupon := some "", headers := [] } : Request).coupon = none ∨
      ({ coupon := some "", headers := [] } : Request).coupon = some "") ∧
    ((handlePromotionCouponRequest sampleWorld behOk
        { coupon := some "", headers := [] } 150).response =
      Response.redirect "/pricing" ∧
    (handlePromotionCouponRequest sampleWorld behOk
        { coupon := some "", headers := [] } 150).cacheGetAttempted = false ∧
    (handlePromotionCouponRequest sampleWorld behOk
        { coupon := some "", headers := [] } 150).repoQueried = false) :=
  ⟨Or.inr rfl,
    empty_coupon_redirects_without_lookups sampleWorld behOk
      { coupon := some "", headers := [] } 150 (Or.inr rfl)⟩

/-- C2: For every coupon code and every cache state in which the cache
read returns a stored snapshot for the key `affiliate:link:{coupon}`
(a cache hit), the resolver returns that snapshot and the Link
Repository is never queried during that resolution. -/
theorem cache_hit_returns_snapshot_and_skips_repository (w : World)
    (beh : Behavior) (req : Request) (now : Int) (coupon : String)
    (v : ResolvedLink)
    (hc : req.coupon = some coupon) (hne : coupon ≠ "")
    (hconn : w.cache.connected = true) (hheal : w.cache.healthy = true)
    (hget : beh.cacheGetFails = false)
    (hhit : cacheLookup w.cache.store (cacheKeyFor coupon) now = some v) :
    (handlePromotionCouponRequest w beh req now).resolved = some v ∧
    (handlePromotionCouponRequest w beh req now).repoQueried = false := by
  have hcr : cachedRead w.cache beh.cacheGetFails (cacheKeyFor coupon) now =
      some v := by
    unfold cachedRead
    rw [hconn, hheal, hget]
    simpa using hhit
  rw [handler_hit w beh req now coupon v hc hne hcr]
  exact ⟨finishRequest_resolved w req now v w.cache.store false beh.trackFails,
    finishRequest_repoQueried w req now v w.cache.store false beh.trackFails⟩

/-- Witness for C2 on the concrete pre-populated cache at instant 150. -/
theorem cache_hit_returns_snapshot_and_skips_repository_witness :
    sampleReq.coupon = some "SAVE20" ∧ "SAVE20" ≠ "" ∧
    cachedWorld.cache.connected = true ∧ cachedWorld.cache.healthy = true ∧
    behOk.cacheGetFails = false ∧
    cacheLookup cachedWorld.cache.store (cacheKeyFor "SAVE20") 150 =
      some sampleSnapshot ∧
    ((handlePromotionCouponRequest cachedWorld behOk sampleReq 150).resolved =
      some sampleSnapshot ∧
    (handlePromotionCouponRequest cachedWorld behOk sampleReq 150).repoQueried =
      false) :=
  ⟨rfl, by decide, rfl, rfl, rfl, rfl,
    cache_hit_returns_snapshot_and_skips_repository cachedWorld behOk sampleReq
      150 "SAVE20" sampleSnapshot rfl (by decide) rfl rfl rfl rfl⟩

/-- C10: A cache hit bypasses the campaign-validity check entirely: the
found decision on the cached path tests only that the snapshot and its
id are non-null, never the campaign window against the current time, so
a snapshot whose campaign has already ended (`end_on ≤ now`) still
resolves to the 200 render within the entry's TTL, without any
repository read. -/
theorem cache_hit_bypasses_campaign_window_check (w : World) (beh : Behavior)
    (req : Request) (now : Int) (coupon : String) (v : ResolvedLink)
    (c : Campaign) (i : Nat)
    (hc : req.coupon = some coupon) (hne : coupon ≠ "")
    (hconn : w.cache.connected = true) (hheal : w.cache.healthy = true)
    (hget : beh.cacheGetFails = false)
    (hhit : cacheLookup w.cache.store (cacheKeyFor coupon) now = some v)
    (hid : v.id = some i)
    (hcamp : v.campaign = some c)
    (hexpired : c.end_on ≤ now) :
    (handlePromotionCouponRequest w beh req now).response =
      Response.render "coupon_redirect" v (countryOf req) 200 ∧
    (handlePromotionCouponRequest w beh req now).repoQueried = false := by
  have hcr : cachedRead w.cache beh.cacheGetFails (cacheKeyFor coupon) now =
      some v := by
    unfold cachedRead
    rw [hconn, hheal, hget]
    simpa using hhit
  rw [handler_hit w beh req now coupon v hc hne hcr]
  rw [finishRequest_id_some w req now v w.cache.store false beh.trackFails i hid]
  exact ⟨rfl, rfl⟩

/-- Witness for C10: the snapshot cached at instant 150 (while its
campaign, ending at 200, was active) is served as a 200 render at
instant 250, after the campaign has ended, with no repository read. -/
theorem cache_hit_bypasses_campaign_window_check_witness :
    sampleReq.coupon = some "SAVE20" ∧ "SAVE20" ≠ "" ∧
    cachedWorld.cache.connected = true ∧ cachedWorld.cache.healthy = true ∧
    behOk.cacheGetFails = false ∧
    cacheLookup cachedWorld.cache.store (cacheKeyFor "SAVE20") 250 =
      some sampleSnapshot ∧
    sampleSnapshot.id = some 11 ∧
    sampleSnapshot.campaign = some sampleCampaign ∧
    sampleCampaign.end_on ≤ 250 ∧
    ((handlePromotionCouponRequest cachedWorld behOk sampleReq 250).response =
      Response.render "coupon_redirect" sampleSnapshot (countryOf sampleReq) 200 ∧
    (handlePromotionCouponRequest cachedWorld behOk sampleReq 250).repoQueried =
      false) :=
  ⟨rfl, by decide, rfl, rfl, rfl, rfl, rfl, rfl, by decide,
    cache_hit_bypasses_campaign_window_check cachedWorld behOk sampleReq 250
      "SAVE20" sampleSnapshot sampleCampaign 11 rfl (by decide) rfl rfl rfl rfl
      rfl rfl (by decide)⟩

/-- C5: For every request (resolved or not), a failure of the tracking
insert does not change the HTTP response: the response with a failing
tracking sink is identical to the response with a succeeding one. -/
theorem tracking_failure_does_not_change_response (w : World) (req : Request)
    (now : Int) (g s : Bool) :
    (handlePromotionCouponRequest w ⟨g, s, true⟩ req now).response =
    (handlePromotionCouponRequest w ⟨g, s, false⟩ req now).response := by
  rcases hreq : req.coupon with _ | coupon
  · rw [handler_coupon_none w ⟨g, s, true⟩ req now hreq,
      handler_coupon_none w ⟨g, s, false⟩ req now hreq]
  · by_cases hne : coupon = ""
    · subst hne
      rw [handler_coupon_empty w ⟨g, s, true⟩ req now hreq,
        handler_coupon_empty w ⟨g, s, false⟩ req now hreq]
    · rcases hcr : cachedRead w.cache g (cacheKeyFor coupon) now with _ | v
      · rcases hq : queryAffiliateLinkFromDatabase w.db coupon now with _ | v
        · rw [handler_miss_none w ⟨g, s, true⟩ req now coupon hreq hne hcr hq,
            handler_miss_none w ⟨g, s, false⟩ req now coupon hreq hne hcr hq]
        · rw [handler_miss_some w ⟨g, s, true⟩ req now coupon v hreq hne hcr hq,
            handler_miss_some w ⟨g, s, false⟩ req now coupon v hreq hne hcr hq]
          exact finishRequest_response_trackFails w req now v _ true true false
      · rw [handler_hit w ⟨g, s, true⟩ req now coupon v hreq hne hcr,
          handler_hit w ⟨g, s, false⟩ req now coupon v hreq hne hcr]
        exact finishRequest_response_trackFails w req now v w.cache.store false
          true false

/-- A run against a connected, healthy cache holding an unexpired
snapshot for the coupon resolves to that snapshot without a repository
read. -/
theorem hit_run_resolved_skips_repo (w : World) (beh : Behavior)
    (req : Request) (now : Int) (coupon : String) (v : ResolvedLink)
    (hc : req.coupon = some coupon) (hne : coupon ≠ "")
    (hconn : w.cache.connected = true) (hheal : w.cache.healthy = true)
    (hget : beh.cacheGetFails = false)
    (hhit : cacheLookup w.cache.store (cacheKeyFor coupon) now = some v) :
    (handlePromotionCouponRequest w beh req now).resolved = some v ∧
    (handlePromotionCouponRequest w beh req now).repoQueried = false := by
  have hcr : cachedRead w.cache beh.cacheGetFails (cacheKeyFor coupon) now =
      some v := by
    unfold cachedRead
    rw [hconn, hheal, hget]
    simpa using hhit
  rw [handler_hit w beh req now coupon v hc hne hcr]
  exact ⟨finishRequest_resolved w req now v w.cache.store false beh.trackFails,
    finishRequest_repoQueried w req now v w.cache.store false beh.trackFails⟩

/-- C1: On a request whose cache read yields no snapshot, resolution
redirects to /pricing (NotFound) exactly when the repository contains no
affiliate-link row with that coupon whose campaign satisfies
`start_on < now` and `end_on > now` with strict inequalities; in
particular at the boundary instants `now = start_on` or `now = end_on`
resolution yields NotFound. -/
theorem coupon_resolution_notfound_iff_no_active_row (w : World)
    (beh : Behavior) (req : Request) (now : Int) (coupon : String)
    (hc : req.coupon = some coupon) (hne : coupon ≠ "")
    (hmiss : cachedRead w.cache beh.cacheGetFails (cacheKeyFor coupon) now = none) :
    ((handlePromotionCouponRequest w beh req now).response =
        Response.redirect "/pricing" ↔
      ¬ activeRowExists w.db coupon now) := by
  rcases hq : queryAffiliateLinkFromDatabase w.db coupon now with _ | v
  · rw [handler_miss_none w beh req now coupon hc hne hmiss hq]
    exact iff_of_true rfl ((query_eq_none_iff w.db coupon now).mp hq)
  · obtain ⟨n, hid⟩ := query_some_id w.db coupon now v hq
    rw [handler_miss_some w beh req now coupon v hc hne hmiss hq]
    rw [finishRequest_id_some w req now v _ true beh.trackFails n hid]
    have hact : activeRowExists w.db coupon now := by
      by_contra hn
      rw [← query_eq_none_iff] at hn
      rw [hn] at hq
      exact Option.noConfusion hq
    exact iff_of_false (by simp) (fun hn => hn hact)

/-- Witness for C1 at the boundary instant `now = start_on = 100`: the
campaign window is closed there, so the response is the /pricing
redirect. -/
theorem coupon_resolution_notfound_iff_no_active_row_witness :
    reqNoHeader.coupon = some "SAVE20" ∧ "SAVE20" ≠ "" ∧
    cachedRead sampleWorld.cache behOk.cacheGetFails (cacheKeyFor "SAVE20") 100 =
      none ∧
    ((handlePromotionCouponRequest sampleWorld behOk reqNoHeader 100).response =
        Response.redirect "/pricing" ↔
      ¬ activeRowExists sampleWorld.db "SAVE20" 100) :=
  ⟨rfl, by decide, rfl,
    coupon_resolution_notfound_iff_no_active_row sampleWorld behOk reqNoHeader
      100 "SAVE20" rfl (by decide) rfl⟩

/-- C9: When resolution yields NotFound because the repository returns no
row, the cache (and the whole world) is left unchanged — no negative
caching — so a subsequent resolution of the same coupon at any later
instant queries the repository again. -/
theorem notfound_from_repository_leaves_cache_unchanged (w : World)
    (beh beh2 : Behavior) (req : Request) (now now2 : Int) (coupon : String)
    (hc : req.coupon = some coupon) (hne : coupon ≠ "")
    (hmiss : cacheLookup w.cache.store (cacheKeyFor coupon) now = none)
    (hdb : queryAffiliateLinkFromDatabase w.db coupon now = none)
    (hle : now ≤ now2) :
    (handlePromotionCouponRequest w beh req now).world = w ∧
    (handlePromotionCouponRequest w beh req now).response =
      Response.redirect "/pricing" ∧
    (handlePromotionCouponRequest
        (handlePromotionCouponRequest w beh req now).world beh2 req
        now2).repoQueried = true := by
  have hcr : cachedRead w.cache beh.cacheGetFails (cacheKeyFor coupon) now =
      none := by
    unfold cachedRead
    split
    · split
      · rfl
      · exact hmiss
    · rfl
  rw [handler_miss_none w beh req now coupon hc hne hcr hdb]
  refine ⟨rfl, rfl, ?_⟩
  have hmiss2 : cacheLookup w.cache.store (cacheKeyFor coupon) now2 = none :=
    cacheLookup_none_mono w.cache.store (cacheKeyFor coupon) now now2 hle hmiss
  have hcr2 : cachedRead w.cache beh2.cacheGetFails (cacheKeyFor coupon) now2 =
      none := by
    unfold cachedRead
    split
    · split
      · rfl
      · exact hmiss2
    · rfl
  show (handlePromotionCouponRequest w beh2 req now2).repoQueried = true
  rcases hq2 : queryAffiliateLinkFromDatabase w.db coupon now2 with _ | v
  · rw [handler_miss_none w beh2 req now2 coupon hc hne hcr2 hq2]
  · rw [handler_miss_some w beh2 req now2 coupon v hc hne hcr2 hq2]
    exact finishRequest_repoQueried w req now2 v _ true beh2.trackFails

/-- Witness for C9: an out-of-window lookup at instant 100 leaves the
world unchanged and a second resolution at instant 210 reads the
repository again. -/
theorem notfound_from_repository_leaves_cache_unchanged_witness :
    reqNoHeader.coupon = some "SAVE20" ∧ "SAVE20" ≠ "" ∧
    cacheLookup sampleWorld.cache.store (cacheKeyFor "SAVE20") 100 = none ∧
    queryAffiliateLinkFromDatabase sampleWorld.db "SAVE20" 100 = none ∧
    (100 : Int) ≤ 210 ∧
    ((handlePromotionCouponRequest sampleWorld behOk reqNoHeader 100).world =
      sampleWorld ∧
    (handlePromotionCouponRequest sampleWorld behOk reqNoHeader 100).response =
      Response.redirect "/pricing" ∧
    (handlePromotionCouponRequest
        (handlePromotionCouponRequest sampleWorld behOk reqNoHeader 100).world
        behOk reqNoHeader 210).repoQueried = true) :=
  ⟨rfl, by decide, rfl, rfl, by decide,
    notfound_from_repository_leaves_cache_unchanged sampleWorld behOk behOk
      reqNoHeader 100 210 "SAVE20" rfl (by decide) rfl rfl (by decide)⟩

/-- C4: If the cache get operation exceeds its 1000 ms wait budget or
fails, or the cache is disconnected or unhealthy, the resolver behaves
exactly as on a cache miss: the repository is queried, the response
equals the one of a clean-cache run, no error response is produced, and
a coupon with an active campaign still resolves to the 200 render. -/
theorem cache_get_failure_degrades_to_miss (w : World) (beh : Behavior)
    (req : Request) (now : Int) (coupon : String)
    (hc : req.coupon = some coupon) (hne : coupon ≠ "")
    (hfail : w.cache.connected = false ∨ w.cache.healthy = false ∨
      beh.cacheGetFails = true) :
    (handlePromotionCouponRequest w beh req now).repoQueried = true ∧
    (handlePromotionCouponRequest w beh req now).response =
      (handlePromotionCouponRequest
        { w with cache := { connected := true, healthy := true, store := [] } }
        { beh with cacheGetFails := false } req now).response ∧
    isJsonError (handlePromotionCouponRequest w beh req now).response = false ∧
    (activeRowExists w.db coupon now →
      ∃ v, (handlePromotionCouponRequest w beh req now).response =
        Response.render "coupon_redirect" v (countryOf req) 200) := by
  have hcr : cachedRead w.cache beh.cacheGetFails (cacheKeyFor coupon) now =
      none := by
    unfold cachedRead
    rcases hfail with h | h | h
    · rw [h]; simp
    · rw [h]; simp
    · rw [h]; simp
  have hcr2 : cachedRead
      ({ w with cache := { connected := true, healthy := true, store := [] } } :
        World).cache
      ({ beh with cacheGetFails := false } : Behavior).cacheGetFails
      (cacheKeyFor coupon) now = none := rfl
  rcases hq : queryAffiliateLinkFromDatabase w.db coupon now with _ | v
  · rw [handler_miss_none w beh req now coupon hc hne hcr hq,
      handler_miss_none _ _ req now coupon hc hne hcr2 hq]
    refine ⟨rfl, rfl, rfl, fun hact => ?_⟩
    exact absurd hact ((query_eq_none_iff w.db coupon now).mp hq)
  · obtain ⟨n, hid⟩ := query_some_id w.db coupon now v hq
    rw [handler_miss_some w beh req now coupon v hc hne hcr hq,
      handler_miss_some _ _ req now coupon v hc hne hcr2 hq]
    rw [finishRequest_id_some w req now v _ true beh.trackFails n hid,
      finishRequest_id_some _ req now v _ true _ n hid]
    exact ⟨rfl, rfl, rfl, fun _ => ⟨v, rfl⟩⟩

/-- Witness for C4 on the disconnected cache at instant 150, where the
sample campaign is active. -/
theorem cache_get_failure_degrades_to_miss_witness :
    sampleReq.coupon = some "SAVE20" ∧ "SAVE20" ≠ "" ∧
    (disconnectedWorld.cache.connected = false ∨
      disconnectedWorld.cache.healthy = false ∨
      behOk.cacheGetFails = true) ∧
    ((handlePromotionCouponRequest disconnectedWorld behOk sampleReq
        150).repoQueried = true ∧
    (handlePromotionCouponRequest disconnectedWorld behOk sampleReq
        150).response =
      (handlePromotionCouponRequest
        { disconnectedWorld with
          cache := { connected := true, healthy := true, store := [] } }
        { behOk with cacheGetFails := false } sampleReq 150).response ∧
    isJsonError (handlePromotionCouponRequest disconnectedWorld behOk sampleReq
        150).response = false ∧
    (activeRowExists disconnectedWorld.db "SAVE20" 150 →
      ∃ v, (handlePromotionCouponRequest disconnectedWorld behOk sampleReq
        150).response =
        Response.render "coupon_redirect" v (countryOf sampleReq) 200)) :=
  ⟨rfl, by decide, Or.inl rfl,
    cache_get_failure_degrades_to_miss disconnectedWorld behOk sampleReq 150
      "SAVE20" rfl (by decide) (Or.inl rfl)⟩

/-- C3: A cache miss followed by a successful repository read writes the
result back under `affiliate:link:{coupon}` with TTL 1800 seconds, so a
following resolution of the same coupon before the expiry (with no
intervening invalidation) is a cache hit returning the same record with
no repository read. -/
theorem cache_miss_write_back_yields_subsequent_hit (w : World)
    (beh1 beh2 : Behavior) (req : Request) (now now2 : Int) (coupon : String)
    (v : ResolvedLink)
    (hc : req.coupon = some coupon) (hne : coupon ≠ "")
    (hconn : w.cache.connected = true) (hheal : w.cache.healthy = true)
    (hmiss : cachedRead w.cache beh1.cacheGetFails (cacheKeyFor coupon) now = none)
    (hdb : queryAffiliateLinkFromDatabase w.db coupon now = some v)
    (hset : beh1.cacheSetFails = false)
    (hget2 : beh2.cacheGetFails = false)
    (httl : now2 < now + 1800) :
    (handlePromotionCouponRequest w beh1 req now).world.cache.store.head? =
      some { key := cacheKeyFor coupon, value := v, expiresAt := now + 1800 } ∧
    (handlePromotionCouponRequest
        (handlePromotionCouponRequest w beh1 req now).world beh2 req
        now2).resolved = some v ∧
    (handlePromotionCouponRequest
        (handlePromotionCouponRequest w beh1 req now).world beh2 req
        now2).repoQueried = false := by
  obtain ⟨n, hid⟩ := query_some_id w.db coupon now v hdb
  have hwrite : (w.cache.connected && !beh1.cacheSetFails) = true := by
    rw [hconn, hset]
    rfl
  rw [handler_miss_some w beh1 req now coupon v hc hne hmiss hdb]
  rw [if_pos hwrite]
  rw [finishRequest_id_some w req now v _ true beh1.trackFails n hid]
  have hhit2 : cacheLookup
      (setEx w.cache.store (cacheKeyFor coupon) v
        (now + CACHE_TTL_AFFILIATE_LINK)) (cacheKeyFor coupon) now2 = some v :=
    cacheLookup_setEx w.cache.store (cacheKeyFor coupon) v
      (now + CACHE_TTL_AFFILIATE_LINK) now2 httl
  have h23 := hit_run_resolved_skips_repo
    { w with
      cache :=
        { w.cache with
          store := setEx w.cache.store (cacheKeyFor coupon) v
            (now + CACHE_TTL_AFFILIATE_LINK) }
      tracking :=
        if beh1.trackFails then w.tracking
        else w.tracking ++
          [insertClickTracking
            { country := countryOf req
              affiliate_id := v.affiliate_id
              campaign_id := v.campaign_id
              link_id := n
              click_status := ClickStatus.CLICK } now] }
    beh2 req now2 coupon v hc hne hconn hheal hget2 hhit2
  exact ⟨rfl, h23.1, h23.2⟩

/-- Witness for C3: a miss at instant 150 populates the cache and the
resolution at instant 160 is a hit on the same record. -/
theorem cache_miss_write_back_yields_subsequent_hit_witness :
    reqNoHeader.coupon = some "SAVE20" ∧ "SAVE20" ≠ "" ∧
    sampleWorld.cache.connected = true ∧ sampleWorld.cache.healthy = true ∧
    cachedRead sampleWorld.cache behOk.cacheGetFails (cacheKeyFor "SAVE20") 150 =
      none ∧
    queryAffiliateLinkFromDatabase sampleWorld.db "SAVE20" 150 =
      some sampleSnapshot ∧
    behOk.cacheSetFails = false ∧ behOk.cacheGetFails = false ∧
    (160 : Int) < 150 + 1800 ∧
    ((handlePromotionCouponRequest sampleWorld behOk reqNoHeader
        150).world.cache.store.head? =
      some { key := cacheKeyFor "SAVE20", value := sampleSnapshot,
             expiresAt := 150 + 1800 } ∧
    (handlePromotionCouponRequest
        (handlePromotionCouponRequest sampleWorld behOk reqNoHeader 150).world
        behOk reqNoHeader 160).resolved = some sampleSnapshot ∧
    (handlePromotionCouponRequest
        (handlePromotionCouponRequest sampleWorld behOk reqNoHeader 150).world
        behOk reqNoHeader 160).repoQueried = false) :=
  ⟨rfl, by decide, rfl, rfl, rfl, rfl, rfl, rfl, by decide,
    cache_miss_write_back_yields_subsequent_hit sampleWorld behOk behOk
      reqNoHeader 150 160 "SAVE20" sampleSnapshot rfl (by decide) rfl rfl rfl
      rfl rfl rfl (by decide)⟩

/-- C7: For every successfully resolved request whose country-code header
(`cf-ipcountry`, looked up case-insensitively) is absent or empty, the
country value UNKNOWN is used both in the created tracking event and in
the rendered output passed to the template. -/
theorem missing_country_header_defaults_to_unknown (w : World)
    (beh : Behavior) (req : Request) (now : Int) (t : String)
    (v : ResolvedLink) (cty : String) (s : Nat)
    (hhdr : extractHeader req.headers "cf-ipcountry" = none ∨
      extractHeader req.headers "cf-ipcountry" = some "")
    (hresp : (handlePromotionCouponRequest w beh req now).response =
      Response.render t v cty s) :
    cty = "UNKNOWN" ∧
    (handlePromotionCouponRequest w beh req now).clickEvent.map
      (fun ev => ev.country) = some "UNKNOWN" := by
  have hcu : countryOf req = "UNKNOWN" := by
    unfold countryOf
    rcases hhdr with h | h <;> rw [h]
    simp
  obtain ⟨ht, hs, hcty, linkId, hid, hev, htr⟩ :=
    handler_render_inv w beh req now t v cty s hresp
  constructor
  · rw [hcty, hcu]
  · rw [hev]
    simp [hcu]

/-- Witness for C7 on the header-less request at instant 150. -/
theorem missing_country_header_defaults_to_unknown_witness :
    (extractHeader reqNoHeader.headers "cf-ipcountry" = none ∨
      extractHeader reqNoHeader.headers "cf-ipcountry" = some "") ∧
    (handlePromotionCouponRequest sampleWorld behOk reqNoHeader 150).response =
      Response.render "coupon_redirect" sampleSnapshot "UNKNOWN" 200 ∧
    ("UNKNOWN" : String) = "UNKNOWN" ∧
    (handlePromotionCouponRequest sampleWorld behOk reqNoHeader
        150).clickEvent.map (fun ev => ev.country) = some "UNKNOWN" :=
  ⟨Or.inl rfl, rfl,
    missing_country_header_defaults_to_unknown sampleWorld behOk reqNoHeader
      150 "coupon_redirect" sampleSnapshot "UNKNOWN" 200 (Or.inl rfl) rfl⟩

/-- C8: Every tracking row persisted by a resolved redirect carries the
resolved record's affiliate id, campaign id and link id, the detected
country, and the constant field values status CLICK, payment HOLD and
amount 0. -/
theorem tracking_row_fields_match_resolved_record (w : World) (beh : Behavior)
    (req : Request) (now : Int) (r : TrackingRow) (t : String)
    (v : ResolvedLink) (cty : String) (s : Nat)
    (hrow : (handlePromotionCouponRequest w beh req now).world.tracking =
      w.tracking ++ [r])
    (hresp : (handlePromotionCouponRequest w beh req now).response =
      Response.render t v cty s) :
    r.country = cty ∧ some r.link_id = v.id ∧
    r.affiliate_id = v.affiliate_id ∧ r.campaign_id = v.campaign_id ∧
    r.click_status = ClickStatus.CLICK ∧ r.payment = PaymentState.HOLD ∧
    r.amount = 0 := by
  obtain ⟨ht, hs, hcty, linkId, hid, hev, htr⟩ :=
    handler_render_inv w beh req now t v cty s hresp
  rw [htr] at hrow
  by_cases htf : beh.trackFails = true
  · rw [if_pos htf] at hrow
    exact absurd hrow (by simp)
  · rw [if_neg htf] at hrow
    have hr : insertClickTracking
        { country := countryOf req
          affiliate_id := v.affiliate_id
          campaign_id := v.campaign_id
          link_id := linkId
          click_status := ClickStatus.CLICK } now = r := by
      simpa using hrow
    subst hr
    exact ⟨hcty.symm, hid.symm, rfl, rfl, rfl, rfl, rfl⟩

/-- The concrete tracking row appended by the header-less sample request
at instant 150, used by the C8 witness. -/
def sampleTrackingRow : TrackingRow :=
  { country := "UNKNOWN"
    affiliate_id := 5
    campaign_id := 7
    link_id := 11
    click_status := ClickStatus.CLICK
    payment := PaymentState.HOLD
    amount := 0
    created_at := 150
    updated_at := 150 }

/-- Witness for C8 on the header-less request at instant 150. -/
theorem tracking_row_fields_match_resolved_record_witness :
    (handlePromotionCouponRequest sampleWorld behOk reqNoHeader
        150).world.tracking = sampleWorld.tracking ++ [sampleTrackingRow] ∧
    (handlePromotionCouponRequest sampleWorld behOk reqNoHeader 150).response =
      Response.render "coupon_redirect" sampleSnapshot "UNKNOWN" 200 ∧
    (sampleTrackingRow.country = "UNKNOWN" ∧
    some sampleTrackingRow.link_id = sampleSnapshot.id ∧
    sampleTrackingRow.affiliate_id = sampleSnapshot.affiliate_id ∧
    sampleTrackingRow.campaign_id = sampleSnapshot.campaign_id ∧
    sampleTrackingRow.click_status = ClickStatus.CLICK ∧
    sampleTrackingRow.payment = PaymentState.HOLD ∧
    sampleTrackingRow.amount = 0) :=
  ⟨rfl, rfl,
    tracking_row_fields_match_resolved_record sampleWorld behOk reqNoHeader 150
      sampleTrackingRow "coupon_redirect" sampleSnapshot "UNKNOWN" 200 rfl rfl⟩

end PromotionCoupon
